import Mathlib

/-!
Shallow embedding of the SaverrInfra personal-finance backend (Python/AWS
Lambda sources) together with proofs about the claims of its specification.

Conventions of the embedding:
 - JSON dictionary fields that may be absent are `Option` values; `dict.get`
   with a default becomes `Option.getD`.
 - Monetary values and Python floats are modelled as exact rationals (`Rat`).
 - `uuid.uuid4()` calls are modelled by a counter `g : Nat` that is threaded
   through the code: the n-th generated UUID of an invocation is `Ident.fresh n`.
   Python evaluates the default argument of `dict.get` eagerly, so every
   `plaid_txn.get(key, generate_id())` consumes a fresh identifier even when
   the key is present; the counter advances accordingly.
 - `get_timestamp()` is modelled by the invocation's clock reading `now`,
   a parameter of the embedded handler.
 - The DynamoDB transactions table is a function from composite keys to
   optional items; `put_item` overwrites, `delete_item` removes.
-/

set_option autoImplicit false

attribute [local semireducible] Rat.mul Rat.inv Rat.add Rat.sub Rat.ofScientific

namespace Saverr

/-- Auxiliary for `splitOnChar`; `acc` holds the current piece reversed. -/
def splitOnCharAux (sep : Char) : List Char → List Char → List (List Char)
  | [], acc => [acc.reverse]
  | c :: rest, acc =>
    if c = sep then acc.reverse :: splitOnCharAux sep rest []
    else splitOnCharAux sep rest (c :: acc)

/-- Python `str.split(sep)` for a one-character separator. -/
def splitOnChar (s : String) (sep : Char) : List (List Char) :=
  splitOnCharAux sep s.data []

/-- Python `str.replace(old, new)` for a one-character pattern. -/
def replaceCharAux (c : Char) (r : List Char) : List Char → List Char
  | [] => []
  | a :: rest =>
    if a = c then r ++ replaceCharAux c r rest else a :: replaceCharAux c r rest

/-- Python `str.replace(old, new)` for a one-character pattern. -/
def pyReplace (s : String) (c : Char) (r : String) : String :=
  String.mk (replaceCharAux c r.data s.data)

/-- Nonempty run of decimal digits. -/
def isDigitsL (l : List Char) : Bool := !l.isEmpty && l.all Char.isDigit

/-- Numeric value of a run of decimal digits. -/
def digitsVal (l : List Char) : Nat := l.foldl (fun acc c => acc * 10 + (c.toNat - 48)) 0

/-- Lexicographic comparison of character lists by code point, the semantics
of Python's `<` on strings. -/
def charsLt : List Char → List Char → Bool
  | [], [] => false
  | [], _ :: _ => true
  | _ :: _, [] => false
  | a :: as2, b :: bs => if a < b then true else if b < a then false else charsLt as2 bs

/-- Python `a < b` on strings. -/
def pyStrLt (a b : String) : Bool := charsLt a.data b.data

/-- Python `a <= b` on strings. -/
def pyStrLe (a b : String) : Bool := !(charsLt b.data a.data)

/-- Identifier stored in the document store: either a string id coming from the
aggregator, or a freshly generated UUID, modelled by its index in the
invocation's supply of generated UUIDs. -/
inductive Ident where
  | str (s : String)
  | fresh (n : Nat)
deriving DecidableEq

/-- Aggregator (Plaid) transaction record as received from the sync endpoint
(`src/lambdas/accounts/sync_transactions.py`). Absent JSON fields are `none`.
The nested `personal_finance_category` object is flattened into its `primary`
and `detailed` fields; an absent object yields two `none`s, matching
`plaid_txn.get("personal_finance_category", {})`. -/
structure PlaidTxn where
  transaction_id : Option String := none
  account_id : Option String := none
  amount : Option Rat := none
  name : Option String := none
  merchant_name : Option String := none
  date : Option String := none
  datetime : Option String := none
  pending : Option Bool := none
  pfc_primary : Option String := none
  pfc_detailed : Option String := none
  category : Option (List String) := none
  payment_channel : Option String := none
  loc_city : Option String := none
  loc_region : Option String := none
  loc_country : Option String := none
deriving DecidableEq

/-- The static category-to-(icon, color) table of `map_plaid_transaction`
(`category_icons` in `sync_transactions.py`). -/
def category_icons (name : String) : Option (String × String) :=
  if name = "FOOD_AND_DRINK" then some ("fork.knife", "#FF6B6B")
  else if name = "TRANSPORTATION" then some ("car.fill", "#4ECDC4")
  else if name = "SHOPPING" then some ("bag.fill", "#45B7D1")
  else if name = "ENTERTAINMENT" then some ("tv.fill", "#96CEB4")
  else if name = "TRAVEL" then some ("airplane", "#FFEAA7")
  else if name = "HEALTHCARE" then some ("heart.fill", "#DDA0DD")
  else if name = "PERSONAL_CARE" then some ("person.fill", "#98D8C8")
  else if name = "GENERAL_SERVICES" then some ("wrench.fill", "#F7DC6F")
  else if name = "GOVERNMENT_AND_NON_PROFIT" then some ("building.columns.fill", "#BB8FCE")
  else if name = "TRANSFER_IN" then some ("arrow.down.circle.fill", "#82E0AA")
  else if name = "TRANSFER_OUT" then some ("arrow.up.circle.fill", "#F1948A")
  else if name = "INCOME" then some ("dollarsign.circle.fill", "#82E0AA")
  else if name = "LOAN_PAYMENTS" then some ("creditcard.fill", "#F5B041")
  else if name = "BANK_FEES" then some ("exclamationmark.circle.fill", "#E74C3C")
  else if name = "RENT_AND_UTILITIES" then some ("house.fill", "#5DADE2")
  else none

/-- Helper for `pyTitle`: Python's `str.title()` uppercases the first letter of
every maximal run of letters and lowercases the rest. The boolean records
whether the previous character was a letter. -/
def titleAux : Bool → List Char → List Char
  | _, [] => []
  | prevAlpha, c :: rest =>
    if c.isAlpha then
      (if prevAlpha then c.toLower else c.toUpper) :: titleAux true rest
    else c :: titleAux false rest

/-- Python's `str.title()` (for the ASCII category names that occur here). -/
def pyTitle (s : String) : String := String.mk (titleAux false s.data)

/-- Internal transaction item as written to the transactions table by
`map_plaid_transaction`. The sort key `TXN#<id>` is modelled structurally by
its id part `sk_txn_id`. -/
structure Txn where
  pk : String
  sk_txn_id : Ident
  id : Ident
  user_id : String
  account_id : String
  plaid_transaction_id : Option String
  amount : Rat
  is_debit : Bool
  description : String
  merchant_name : Option String
  date : Option String
  datetime : Option String
  pending : Bool
  category_name : String
  category_detailed : String
  category_icon : String
  category_color : String
  payment_channel : Option String
  loc_city : Option String
  loc_region : Option String
  loc_country : Option String
  created_at : String
  synced_at : String
deriving DecidableEq

/-- Embedding of `map_plaid_transaction` (`sync_transactions.py`, lines
144-208). `g` is the position in the supply of generated UUIDs and `now` the
invocation's clock reading; the result pairs the mapped item with the advanced
supply position (both `plaid_txn.get("transaction_id", generate_id())`
defaults are evaluated eagerly, so the position always advances by two). -/
def map_plaid_transaction (p : PlaidTxn) (user_id account_id : String) (g : Nat)
    (now : String) : Txn × Nat :=
  let categoryFallback :=
    match p.category with
    | some (c :: _) => c
    | _ => "Uncategorized"
  let category_name := p.pfc_primary.getD categoryFallback
  let iconColor :=
    (category_icons category_name.toUpper).getD ("questionmark.circle.fill", "#95A5A6")
  ({ pk := "ACCOUNT#" ++ account_id
   , sk_txn_id :=
       match p.transaction_id with
       | some t => Ident.str t
       | none => Ident.fresh g
   , id :=
       match p.transaction_id with
       | some t => Ident.str t
       | none => Ident.fresh (g + 1)
   , user_id := user_id
   , account_id := account_id
   , plaid_transaction_id := p.transaction_id
   , amount := |p.amount.getD 0|
   , is_debit := decide (0 < p.amount.getD 0)
   , description := p.name.getD "Unknown Transaction"
   , merchant_name := p.merchant_name
   , date := p.date
   , datetime := p.datetime
   , pending := p.pending.getD false
   , category_name := pyTitle (category_name.replace "_" " ")
   , category_detailed := p.pfc_detailed.getD ""
   , category_icon := iconColor.1
   , category_color := iconColor.2
   , payment_channel := p.payment_channel
   , loc_city := p.loc_city
   , loc_region := p.loc_region
   , loc_country := p.loc_country
   , created_at := now
   , synced_at := now }, g + 2)

/-- Composite storage key of the transactions table: partition key
`ACCOUNT#<account id>` and the id part of the sort key `TXN#<id>`. -/
structure TxnKey where
  pk : String
  txn_id : Ident
deriving DecidableEq

/-- The transactions table, addressed by composite key. -/
def TxnStore := TxnKey → Option Txn

/-- DynamoDB `put_item`: insert or overwrite under the item's key. -/
def TxnStore.put (s : TxnStore) (k : TxnKey) (v : Txn) : TxnStore :=
  fun k2 => if k2 = k then some v else s k2

/-- DynamoDB `delete_item`: removing an absent key is a no-op. -/
def TxnStore.del (s : TxnStore) (k : TxnKey) : TxnStore :=
  fun k2 => if k2 = k then none else s k2

/-- Storage key of a mapped transaction item (its `pk` and `sk` fields). -/
def Txn.key (t : Txn) : TxnKey := ⟨t.pk, t.sk_txn_id⟩

/-- Account record (accounts table) with the fields the sync handler reads
and writes. -/
structure Account where
  id : String
  user_id : String
  plaid_access_token : Option String := none
  plaid_account_id : Option String := none
  plaid_sync_cursor : Option String := none
  last_synced : Option String := none
deriving DecidableEq

/-- Response of the aggregator's `/transactions/sync` endpoint. -/
structure SyncResponse where
  added : List PlaidTxn := []
  modified : List PlaidTxn := []
  removed : List PlaidTxn := []
  next_cursor : Option String := none
  has_more : Bool := false

/-- State threaded through the processing loops of the incremental sync:
the transactions table, the fresh-UUID supply position, the index of the next
repository operation (used by the fault model), and the response counters. -/
structure SyncSt where
  store : TxnStore
  g : Nat
  op : Nat
  addedCount : Nat := 0
  modifiedCount : Nat := 0
  removedCount : Nat := 0

/-- Fault model: a repository call raises an exception exactly when its
operation index equals `failAt`. `failAt = none` is a fault-free run. -/
def opRaises (failAt : Option Nat) (op : Nat) : Bool := failAt == some op

/-- The `added`/`modified` loops of the incremental sync handler
(`sync_transactions.py`, lines 278-290): records whose external account id
equals the account's `plaid_account_id` (Python compares the two `get`
results, so two absent ids also match) are mapped and upserted. A raised
repository call aborts the loop with the writes made so far kept. `isAdded`
selects which response counter the loop increments. -/
def processUpserts (uid acctId : String) (plaidAcctId : Option String) (now : String)
    (failAt : Option Nat) (isAdded : Bool) : List PlaidTxn → SyncSt → SyncSt × Bool
  | [], st => (st, true)
  | p :: rest, st =>
    if p.account_id = plaidAcctId then
      let mapped := map_plaid_transaction p uid acctId st.g now
      if opRaises failAt st.op then ({ st with g := mapped.2 }, false)
      else
        processUpserts uid acctId plaidAcctId now failAt isAdded rest
          { st with
            store := st.store.put mapped.1.key mapped.1,
            g := mapped.2,
            op := st.op + 1,
            addedCount := st.addedCount + (if isAdded then 1 else 0),
            modifiedCount := st.modifiedCount + (if isAdded then 0 else 1) }
    else processUpserts uid acctId plaidAcctId now failAt isAdded rest st

/-- The `removed` loop of the incremental sync handler (lines 292-297):
records with a truthy `transaction_id` are deleted by composite key. -/
def processRemovals (acctId : String) (failAt : Option Nat) :
    List PlaidTxn → SyncSt → SyncSt × Bool
  | [], st => (st, true)
  | p :: rest, st =>
    if p.transaction_id.getD "" ≠ "" then
      if opRaises failAt st.op then (st, false)
      else
        processRemovals acctId failAt rest
          { st with
            store :=
              st.store.del ⟨"ACCOUNT#" ++ acctId, Ident.str (p.transaction_id.getD "")⟩,
            op := st.op + 1,
            removedCount := st.removedCount + 1 }
    else processRemovals acctId failAt rest st

/-- The three processing loops of one incremental page, in source order:
`added`, then `modified`, then `removed`; a raised repository call
short-circuits. -/
def processAll (acct : Account) (uid now : String) (failAt : Option Nat)
    (resp : SyncResponse) (st0 : SyncSt) : SyncSt × Bool :=
  match processUpserts uid acct.id acct.plaid_account_id now failAt true resp.added st0 with
  | (st1, false) => (st1, false)
  | (st1, true) =>
    match processUpserts uid acct.id acct.plaid_account_id now failAt false resp.modified st1 with
    | (st2, false) => (st2, false)
    | (st2, true) => processRemovals acct.id failAt resp.removed st2

/-- Outcome of the sync invocation: the success payload of the handler's
response, or the service-unavailable error response. -/
inductive SyncOutcome where
  | ok (addedCount modifiedCount removedCount : Nat) (has_more : Bool) (cursor : Option String)
  | serviceUnavailable
deriving DecidableEq

/-- The incremental (`use_sync`) branch of the sync handler
(`sync_transactions.py`, lines 267-316): call the aggregator (`aggResp = none`
models a raised aggregator or credentials call), process the page, and only
then write the returned cursor and a last-synced timestamp onto the account
record. Any raised step yields the service-unavailable response; writes
already made to the transactions table persist, the account record does not
change. -/
def sync_incremental (acct : Account) (uid : String) (aggResp : Option SyncResponse)
    (failAt : Option Nat) (g : Nat) (now : String) (store : TxnStore) :
    SyncOutcome × TxnStore × Account :=
  match aggResp with
  | none => (.serviceUnavailable, store, acct)
  | some resp =>
    match processAll acct uid now failAt resp { store := store, g := g, op := 0 } with
    | (st, false) => (.serviceUnavailable, st.store, acct)
    | (st, true) =>
      if opRaises failAt st.op then (.serviceUnavailable, st.store, acct)
      else
        (.ok st.addedCount st.modifiedCount st.removedCount resp.has_more resp.next_cursor,
         st.store,
         { acct with plaid_sync_cursor := resp.next_cursor, last_synced := some now })

/-- The day-count window of the sync handler (lines 261-262): the requested
value is capped at 730, with no lower bound applied. -/
def effective_days (days : Int) : Int := min days 730

/-- The inclusive date range used by the legacy branch (lines 318-321), in
days since the epoch: `[now - days, now]` for the capped day count. -/
def legacy_window (nowDays requestedDays : Int) : Int × Int :=
  (nowDays - effective_days requestedDays, nowDays)

/-- Gregorian leap year. -/
def isLeap (y : Nat) : Bool := (y % 4 = 0 && y % 100 != 0) || y % 400 = 0

/-- Number of days of month `m` of year `y`. -/
def daysInMonth (y m : Nat) : Nat :=
  if m = 2 then (if isLeap y then 29 else 28)
  else if m = 4 ∨ m = 6 ∨ m = 9 ∨ m = 11 then 30
  else 31

/-- Parsing of a `%Y-%m-%d` date string (Python `datetime.strptime`): three
dash-separated digit groups forming a valid calendar date. Returns
`(year, month, day)`. -/
def parseDateL (l : List Char) : Option (Nat × Nat × Nat) :=
  match splitOnCharAux '-' l [] with
  | [ys, ms, ds] =>
    if isDigitsL ys && isDigitsL ms && isDigitsL ds then
      let y := digitsVal ys
      let m := digitsVal ms
      let d := digitsVal ds
      if 1 ≤ m ∧ m ≤ 12 ∧ 1 ≤ d ∧ d ≤ daysInMonth y m then some (y, m, d) else none
    else none
  | _ => none

/-- Parsing of a `%Y-%m-%d` date string. -/
def parseDate (s : String) : Option (Nat × Nat × Nat) := parseDateL s.data

/-- Days since 1970-01-01 of a calendar date (civil-from-date algorithm). -/
def daysFromCivil (y m d : Nat) : Int :=
  let yi : Int := if m ≤ 2 then (y : Int) - 1 else (y : Int)
  let era : Int := yi.fdiv 400
  let yoe : Int := yi - era * 400
  let mp : Int := ((m : Int) + 9) % 12
  let doy : Int := (153 * mp + 2) / 5 + (d : Int) - 1
  let doe : Int := yoe * 365 + yoe / 4 - yoe / 100 + doy
  era * 146097 + doe - 719468

/-- Calendar date of a number of days since 1970-01-01 (date-from-civil
algorithm, inverse of `daysFromCivil`). -/
def civilFromDays (z0 : Int) : Nat × Nat × Nat :=
  let z : Int := z0 + 719468
  let era : Int := z.fdiv 146097
  let doe : Int := z - era * 146097
  let yoe : Int := (doe - doe / 1460 + doe / 36524 - doe / 146096) / 365
  let yi : Int := yoe + era * 400
  let doy : Int := doe - (365 * yoe + yoe / 4 - yoe / 100)
  let mp : Int := (5 * doy + 2) / 153
  let d : Int := doy - (153 * mp + 2) / 5 + 1
  let m : Int := if mp < 10 then mp + 3 else mp - 9
  ((yi + (if m ≤ 2 then 1 else 0)).toNat, m.toNat, d.toNat)

/-- Decimal rendering of `n` left-padded with zeros to `width` characters. -/
def padNum (width n : Nat) : String :=
  let s := toString n
  if s.length < width then String.mk (List.replicate (width - s.length) '0') ++ s else s

/-- Python `strftime("%Y-%m-%d")`. -/
def formatCivil (y m d : Nat) : String :=
  padNum 4 y ++ "-" ++ padNum 2 m ++ "-" ++ padNum 2 d

/-- Python `strftime("%Y-%m")`. -/
def formatMonth (y m : Nat) : String := padNum 4 y ++ "-" ++ padNum 2 m

/-- Python `date.weekday()`: Monday is 0; 1970-01-01 was a Thursday. -/
def weekdayOf (z : Int) : Int := (z + 3) % 7

/-- Period key of a transaction date under a granularity
(`get_cash_flow.py`, lines 41-49): the date itself for `daily`, the Monday on
or before it for `weekly`, the year-month otherwise. -/
def periodKey (granularity dateStr : String) (ymd : Nat × Nat × Nat) : String :=
  if granularity = "daily" then dateStr
  else if granularity = "weekly" then
    let z := daysFromCivil ymd.1 ymd.2.1 ymd.2.2
    let monday := z - weekdayOf z
    let c := civilFromDays monday
    formatCivil c.1 c.2.1 c.2.2
  else formatMonth ymd.1 ymd.2.1

/-- Stored transaction item as read back by the analytics handlers, which
access only `amount`, `date` and `category_name` via `dict.get`. -/
structure StoredTxn where
  amount : Option Rat := none
  date : Option String := none
  category_name : Option String := none
deriving DecidableEq

/-- View of a synced transaction item as analytics input. -/
def Txn.toStored (t : Txn) : StoredTxn :=
  { amount := some t.amount, date := t.date, category_name := some t.category_name }

/-- Association list standing for a Python `defaultdict(float)`: adding to a
present key updates it in place, adding to an absent key appends it. -/
abbrev Buckets := List (String × Rat)

/-- The `defaultdict` update `d[k] += v`. -/
def bump (l : Buckets) (k : String) (v : Rat) : Buckets :=
  match l with
  | [] => [(k, v)]
  | (k0, v0) :: rest => if k0 = k then (k0, v0 + v) :: rest else (k0, v0) :: bump rest k v

/-- Amount held by a bucket map at a key, zero when absent. -/
def bucketAmount (l : Buckets) (k : String) : Rat :=
  ((l.find? (fun pr => pr.1 == k)).map Prod.snd).getD 0

/-- Sum of all bucket amounts (Python `sum(d.values())`). -/
def sumValues (l : Buckets) : Rat := (l.map Prod.snd).sum

/-- Period key of a transaction in the cash-flow aggregation, `none` when the
record is skipped: the first ten characters of its date must be nonempty and
parse as a date (`get_cash_flow.py`, lines 31-39). -/
def bucketKey? (granularity : String) (t : StoredTxn) : Option String :=
  let dateStr := (t.date.getD "").take 10
  if dateStr = "" then none
  else
    match parseDate dateStr with
    | none => none
    | some ymd => some (periodKey granularity dateStr ymd)

/-- Loop body of `aggregate_by_granularity` (lines 29-54): non-negative
amounts accumulate into the inflow buckets, magnitudes of negative amounts
into the outflow buckets. -/
def cashFlowStep (granularity : String) (acc : Buckets × Buckets) (t : StoredTxn) :
    Buckets × Buckets :=
  match bucketKey? granularity t with
  | none => acc
  | some key =>
    let amount := t.amount.getD 0
    if 0 ≤ amount then (bump acc.1 key amount, acc.2)
    else (acc.1, bump acc.2 key |amount|)

/-- Embedding of `aggregate_by_granularity` (`get_cash_flow.py`, lines 24-56),
returning the inflow and outflow bucket maps. -/
def aggregate_by_granularity (txns : List StoredTxn) (granularity : String) :
    Buckets × Buckets :=
  txns.foldl (cashFlowStep granularity) ([], [])

/-- The handler's `total_inflow` (`get_cash_flow.py`, line 117). -/
def total_inflow (txns : List StoredTxn) (granularity : String) : Rat :=
  sumValues (aggregate_by_granularity txns granularity).1

/-- The handler's `total_outflow` (line 118). -/
def total_outflow (txns : List StoredTxn) (granularity : String) : Rat :=
  sumValues (aggregate_by_granularity txns granularity).2

/-- The handler's `net_flow` (line 119). -/
def net_flow (txns : List StoredTxn) (granularity : String) : Rat :=
  total_inflow txns granularity - total_outflow txns granularity

/-- Inflow contribution of one transaction to one period bucket: its amount
when it is bucketed under `k` with a non-negative amount, else zero. -/
def inflowContrib (granularity k : String) (t : StoredTxn) : Rat :=
  match bucketKey? granularity t with
  | some key => if key = k ∧ 0 ≤ t.amount.getD 0 then t.amount.getD 0 else 0
  | none => 0

/-- Outflow contribution of one transaction to one period bucket: its
magnitude when it is bucketed under `k` with a negative amount, else zero. -/
def outflowContrib (granularity k : String) (t : StoredTxn) : Rat :=
  match bucketKey? granularity t with
  | some key => if key = k ∧ ¬ 0 ≤ t.amount.getD 0 then |t.amount.getD 0| else 0
  | none => 0

/-- Total inflow contribution of one transaction (over all buckets). -/
def inflowTotalContrib (granularity : String) (t : StoredTxn) : Rat :=
  match bucketKey? granularity t with
  | some _ => if 0 ≤ t.amount.getD 0 then t.amount.getD 0 else 0
  | none => 0

/-- Total outflow contribution of one transaction (over all buckets). -/
def outflowTotalContrib (granularity : String) (t : StoredTxn) : Rat :=
  match bucketKey? granularity t with
  | some _ => if ¬ 0 ≤ t.amount.getD 0 then |t.amount.getD 0| else 0
  | none => 0

/-- The `defaultdict(lambda: {"amount": 0, "count": 0})` update of
`get_spending_by_category.py`: add a magnitude and increment the count of one
category entry, appending the entry when absent. -/
def spendBump (l : List (String × Rat × Nat)) (k : String) (v : Rat) :
    List (String × Rat × Nat) :=
  match l with
  | [] => [(k, v, 1)]
  | (k0, a0, c0) :: rest =>
    if k0 = k then (k0, a0 + v, c0 + 1) :: rest else (k0, a0, c0) :: spendBump rest k v

/-- Loop body of the spending-by-category collection (`get_spending_by_category.py`,
lines 76-90): only transactions with a negative amount and a date (first ten
characters) inside the inclusive range contribute their magnitude to their
category. -/
def spendingStep (startDate endDate : String) (acc : List (String × Rat × Nat))
    (t : StoredTxn) : List (String × Rat × Nat) :=
  let txnDate := (t.date.getD "").take 10
  let amount := t.amount.getD 0
  if 0 ≤ amount then acc
  else if ¬ (pyStrLe startDate txnDate && pyStrLe txnDate endDate) then acc
  else spendBump acc (t.category_name.getD "Other") |amount|

/-- The `category_spending` map of the spending-by-category handler. -/
def category_spending (txns : List StoredTxn) (startDate endDate : String) :
    List (String × Rat × Nat) :=
  txns.foldl (spendingStep startDate endDate) []

/-- The handler's `total_spending` (line 93): the sum of the per-category
amounts. -/
def total_spending (txns : List StoredTxn) (startDate endDate : String) : Rat :=
  ((category_spending txns startDate endDate).map (fun x => x.2.1)).sum

/-- The handler's iteration order (line 97): categories sorted by amount,
descending (Python `sorted(..., reverse=True)` is a stable descending sort). -/
def spendingSorted (txns : List StoredTxn) (startDate endDate : String) :
    List (String × Rat × Nat) :=
  (category_spending txns startDate endDate).mergeSort (fun a b => decide (b.2.1 ≤ a.2.1))

/-- Per-category percentages of the spending-by-category response (line 101):
amount divided by total spending, or zero for every category when the total is
not positive. The handler additionally rounds the quotient to four decimal
places for presentation; the percentage itself is this quotient. -/
def category_percentage (txns : List StoredTxn) (startDate endDate : String) :
    List (String × Rat) :=
  let total := total_spending txns startDate endDate
  (spendingSorted txns startDate endDate).map
    (fun x => (x.1, if 0 < total then x.2.1 / total else 0))

/-- Loop body of the budget-comparison actual-spend collection
(`get_budget_comparison.py`, lines 90-103): same negative-amount rule, with a
half-open date range `[start, end)` bounded by the first day of the next
month. -/
def budgetActualStep (startDate endDate : String) (acc : Buckets) (t : StoredTxn) :
    Buckets :=
  let txnDate := (t.date.getD "").take 10
  let amount := t.amount.getD 0
  if 0 ≤ amount then acc
  else if ¬ (pyStrLe startDate txnDate && pyStrLt txnDate endDate) then acc
  else bump acc (t.category_name.getD "Other") |amount|

/-- The `category_actual` map of the budget-comparison handler. -/
def category_actual (txns : List StoredTxn) (startDate endDate : String) : Buckets :=
  txns.foldl (budgetActualStep startDate endDate) []

/-- The handler's `actual_total` (line 106). -/
def actual_total (txns : List StoredTxn) (startDate endDate : String) : Rat :=
  sumValues (category_actual txns startDate endDate)

/-- Goal-creation payload as passed to `GoalRepository.create_goal`
(`shared/database.py`, lines 251-269): a dictionary whose keys may be absent.
A present `progress` key overrides the repository's computed value because the
payload is merged last into the item (`**goal_data`); the only caller,
`goals/create_goal.py`, passes a `progress` computed with the same formula. -/
structure GoalData where
  title : Option String := none
  description : Option String := none
  target_amount : Option Rat := none
  current_amount : Option Rat := none
  target_date : Option String := none
  category : Option String := none
  is_ai_generated : Option Bool := none
  priority : Option Int := none
  progress : Option Rat := none
deriving DecidableEq

/-- Stored goal item. Fields that come from the creation payload may be
absent. -/
structure Goal where
  id : String
  user_id : String
  created_at : String
  last_updated : Option String := none
  status : String := "active"
  is_ai_generated : Bool := false
  progress : Rat := 0
  title : Option String := none
  description : Option String := none
  target_amount : Option Rat := none
  current_amount : Option Rat := none
  target_date : Option String := none
  category : Option String := none
  priority : Option Int := none
deriving DecidableEq

/-- The progress formula of `GoalRepository` (`database.py`, lines 256 and
281): `current / target` when the target is positive, zero otherwise. -/
def goalProgress (current target : Rat) : Rat :=
  if 0 < target then current / target else 0

/-- Embedding of `GoalRepository.create_goal` (`database.py`, lines 251-269).
`goal_id` models the generated UUID and `now` the `created_at` timestamp. The
progress is computed from the payload amounts with defaults 0 and 1, then the
payload is merged last, overriding `is_ai_generated` and `progress` when it
carries them. -/
def create_goal (user_id goal_id now : String) (gd : GoalData) : Goal :=
  let current := gd.current_amount.getD 0
  let target := gd.target_amount.getD 1
  { id := goal_id
  , user_id := user_id
  , created_at := now
  , status := "active"
  , is_ai_generated := gd.is_ai_generated.getD false
  , progress := gd.progress.getD (goalProgress current target)
  , title := gd.title
  , description := gd.description
  , target_amount := gd.target_amount
  , current_amount := gd.current_amount
  , target_date := gd.target_date
  , category := gd.category
  , priority := gd.priority }

/-- Update payload of `GoalRepository.update_goal`: a key is updated exactly
when its field is `some`. `target_date` can be updated to null
(`update_goal.py` line 90 stores the raw body value), hence the nested
option. -/
structure GoalUpdates where
  title : Option String := none
  description : Option String := none
  target_amount : Option Rat := none
  current_amount : Option Rat := none
  target_date : Option (Option String) := none
  category : Option String := none
  priority : Option Int := none
deriving DecidableEq

/-- Embedding of `GoalRepository.update_goal` (`database.py`, lines 271-283)
applied to an existing stored goal `goal`: a `last_updated` timestamp is
always written; when the payload touches either amount, the progress is
recomputed from the payload values, falling back to the stored amounts with
defaults 0 and 1; the DynamoDB update then merges the attributes into the
item. -/
def update_goal (goal : Goal) (u : GoalUpdates) (now : String) : Goal :=
  let touchesAmounts := u.current_amount.isSome || u.target_amount.isSome
  let progressNew :=
    if touchesAmounts then
      let current := u.current_amount.getD (goal.current_amount.getD 0)
      let target := u.target_amount.getD (goal.target_amount.getD 1)
      goalProgress current target
    else goal.progress
  { goal with
    last_updated := some now,
    progress := progressNew,
    title := match u.title with | some t => some t | none => goal.title,
    description := match u.description with | some t => some t | none => goal.description,
    target_amount := match u.target_amount with | some t => some t | none => goal.target_amount,
    current_amount := match u.current_amount with | some t => some t | none => goal.current_amount,
    target_date := match u.target_date with | some t => t | none => goal.target_date,
    category := match u.category with | some t => some t | none => goal.category,
    priority := match u.priority with | some t => some t | none => goal.priority }

/-- Two-digit numeric field bounded by `bound`. -/
def parse2 (l : List Char) (bound : Nat) : Option Nat :=
  if l.length = 2 && isDigitsL l then
    let n := digitsVal l
    if n ≤ bound then some n else none
  else none

/-- Syntactic check of a `HH:MM` timezone offset. -/
def isOffsetStr (o : List Char) : Bool :=
  match splitOnCharAux ':' o [] with
  | [h, mi] => (parse2 h 23).isSome && (parse2 mi 59).isSome
  | _ => false

/-- Splits a trailing `+HH:MM` or `-HH:MM` timezone offset off an ISO time
part. The offset's value is irrelevant because the caller drops the timezone
(`created.replace(tzinfo=None)`). -/
def splitTzOffset (t : List Char) : Option (List Char) :=
  match splitOnCharAux '+' t [] with
  | [core] =>
    match splitOnCharAux '-' core [] with
    | [c] => some c
    | [c, off] => if isOffsetStr off then some c else none
    | _ => none
  | [core, off] => if isOffsetStr off then some core else none
  | _ => none

/-- Seconds field of an ISO time, with an optional fractional part of at most
six digits. -/
def parseSecFrac (ss : List Char) : Option Rat :=
  match splitOnCharAux '.' ss [] with
  | [sec] => (parse2 sec 59).map (fun n => (n : Rat))
  | [sec, frac] =>
    match parse2 sec 59 with
    | some n =>
      if isDigitsL frac && frac.length ≤ 6 then
        some ((n : Rat) + (digitsVal frac : Rat) / ((10 : Rat) ^ frac.length))
      else none
    | none => none
  | _ => none

/-- Seconds since midnight of an ISO `HH:MM`, `HH:MM:SS` or `HH:MM:SS.ffffff`
time. -/
def parseTimeOfDay (t : List Char) : Option Rat :=
  match splitOnCharAux ':' t [] with
  | [hs, ms2] =>
    match parse2 hs 23, parse2 ms2 59 with
    | some h, some mi => some ((h : Rat) * 3600 + (mi : Rat) * 60)
    | _, _ => none
  | [hs, ms2, ss] =>
    match parse2 hs 23, parse2 ms2 59, parseSecFrac ss with
    | some h, some mi, some s => some ((h : Rat) * 3600 + (mi : Rat) * 60 + s)
    | _, _, _ => none
  | _ => none

/-- Python `datetime.fromisoformat` followed by `replace(tzinfo=None)`,
yielding the naive instant as rational days since 1970-01-01. -/
def parseIsoInstant (s : String) : Option Rat :=
  match splitOnChar s 'T' with
  | [d] => (parseDateL d).map (fun ymd => ((daysFromCivil ymd.1 ymd.2.1 ymd.2.2 : Int) : Rat))
  | [d, t] =>
    match parseDateL d, splitTzOffset t with
    | some ymd, some core =>
      (parseTimeOfDay core).map
        (fun secs => ((daysFromCivil ymd.1 ymd.2.1 ymd.2.2 : Int) : Rat) + secs / 86400)
    | _, _ => none
  | _ => none

/-- Python `int()` on a rational: truncation toward zero. -/
def ratTrunc (q : Rat) : Int := if q < 0 then -((-q).floor) else q.floor

/-- Embedding of `calculate_projected_completion`
(`get_savings_progress.py`, lines 22-70). Instants are rational days since the
epoch and `now` is the invocation's clock reading; `timedelta.days` is the
floor of the difference in days. The outer `none` models an uncaught
exception: the division on line 43 raises `ZeroDivisionError` when
`(target - created).days` is zero. The result triple is (projected completion
date, on-track flag, monthly contribution estimate). -/
def calculate_projected_completion (goal : Goal) (now : Rat) :
    Option (Option String × Bool × Rat) :=
  let current_amount := goal.current_amount.getD 0
  let target_amount := goal.target_amount.getD 0
  let target_date := goal.target_date.getD ""
  if target_date = "" ∨ target_amount ≤ 0 then some (none, false, 0)
  else
    match parseDate target_date, parseIsoInstant (pyReplace goal.created_at 'Z' "+00:00") with
    | some ymd, some created =>
      let target : Rat := ((daysFromCivil ymd.1 ymd.2.1 ymd.2.2 : Int) : Rat)
      let remaining := target_amount - current_amount
      if remaining ≤ 0 then
        if created < target then
          let dd : Int := (target - created).floor
          if dd = 0 then none
          else some (some target_date, true, current_amount / (dd : Rat))
        else some (some target_date, true, 0)
      else
        let days_elapsed : Int := (now - created).floor
        if days_elapsed ≤ 0 then some (some target_date, true, 0)
        else
          let daily_rate := current_amount / (days_elapsed : Rat)
          let days_to_target : Int := (target - now).floor
          if days_to_target ≤ 0 then some (some target_date, false, daily_rate * 30)
          else if 0 < daily_rate then
            let days_to_complete := remaining / daily_rate
            let projected : Rat := now + ((ratTrunc days_to_complete : Int) : Rat)
            let pc := civilFromDays projected.floor
            some (some (formatCivil pc.1 pc.2.1 pc.2.2), projected ≤ target, daily_rate * 30)
          else some (none, false, daily_rate * 30)
    | _, _ => some (none, false, 0)

/-- A single repository write against the transactions table. -/
inductive StoreOp where
  | putOp (k : TxnKey) (v : Txn)
  | delOp (k : TxnKey)
deriving DecidableEq

/-- The key a store operation touches. -/
def StoreOp.key : StoreOp → TxnKey
  | .putOp k _ => k
  | .delOp k => k

/-- The value left at the touched key. -/
def StoreOp.write : StoreOp → Option Txn
  | .putOp _ v => some v
  | .delOp _ => none

/-- Apply one store operation. -/
def applyOp (s : TxnStore) : StoreOp → TxnStore
  | .putOp k v => s.put k v
  | .delOp k => s.del k

/-- Apply a sequence of store operations in order. -/
def applyOps (s : TxnStore) (l : List StoreOp) : TxnStore := l.foldl applyOp s

/-- The write sequence the `added`/`modified` loops issue from supply position
`g` (fault-free run). -/
def upsertOps (uid acctId : String) (plaidAcctId : Option String) (now : String) :
    List PlaidTxn → Nat → List StoreOp
  | [], _ => []
  | p :: rest, g =>
    if p.account_id = plaidAcctId then
      let mapped := map_plaid_transaction p uid acctId g now
      .putOp mapped.1.key mapped.1 :: upsertOps uid acctId plaidAcctId now rest mapped.2
    else upsertOps uid acctId plaidAcctId now rest g

/-- Supply position after an upsert loop: two fresh UUIDs per mapped record. -/
def gAfter (plaidAcctId : Option String) : List PlaidTxn → Nat → Nat
  | [], g => g
  | p :: rest, g =>
    if p.account_id = plaidAcctId then gAfter plaidAcctId rest (g + 2)
    else gAfter plaidAcctId rest g

/-- The delete sequence the `removed` loop issues. -/
def removalOps (acctId : String) : List PlaidTxn → List StoreOp
  | [] => []
  | p :: rest =>
    if p.transaction_id.getD "" ≠ "" then
      .delOp ⟨"ACCOUNT#" ++ acctId, .str (p.transaction_id.getD "")⟩ :: removalOps acctId rest
    else removalOps acctId rest

/-- The complete write sequence of one fault-free incremental page. -/
def syncOps (acct : Account) (uid now : String) (resp : SyncResponse) (g : Nat) :
    List StoreOp :=
  upsertOps uid acct.id acct.plaid_account_id now resp.added g ++
    upsertOps uid acct.id acct.plaid_account_id now resp.modified
      (gAfter acct.plaid_account_id resp.added g) ++
    removalOps acct.id resp.removed

/-- The empty transactions table. -/
def emptyStore : TxnStore := fun _ => none

/-- Example linked account. -/
def acctEx : Account :=
  { id := "acc1", user_id := "u1", plaid_access_token := some "tok",
    plaid_account_id := some "pa1", plaid_sync_cursor := none }

/-- Example aggregator record carrying an external transaction id. -/
def txEx : PlaidTxn :=
  { transaction_id := some "t1", account_id := some "pa1", amount := some 12.5,
    name := some "Coffee", date := some "2024-01-05" }

/-- Example sync response with one added record. -/
def respEx : SyncResponse := { added := [txEx], next_cursor := some "cursor-2" }

/-- Example aggregator record lacking an external transaction id. -/
def txNoIdEx : PlaidTxn := { account_id := some "pa1", amount := some 5 }

/-- Example aggregator record with a zero amount. -/
def txZeroEx : PlaidTxn := { transaction_id := some "t0", amount := some 0 }

/-- Example goal whose target date has passed. -/
def goalEx6 : Goal :=
  { id := "g1", user_id := "u1", created_at := "2023-01-01T00:00:00Z",
    progress := 0.1, target_amount := some 1000, current_amount := some 100,
    target_date := some "2024-01-01" }

/-- Example clock reading after `goalEx6`'s target date. -/
def nowEx6 : Rat := ((daysFromCivil 2024 6 1 : Int) : Rat)

/-- Example goal-creation payload whose current amount exceeds its target. -/
def gdEx : GoalData :=
  { title := some "Trip", target_amount := some 200, current_amount := some 300 }

/-- Example stored goal for the update path. -/
def goalEx5 : Goal :=
  { id := "g2", user_id := "u1", created_at := "2023-01-01T00:00:00Z",
    progress := 0, target_amount := some 1000, current_amount := some 0 }

/-- Example goal update touching the current amount. -/
def updEx : GoalUpdates := { current_amount := some 250 }

/-- Example stored expense transactions. -/
def stEx : StoredTxn :=
  { amount := some (-30), date := some "2024-02-10", category_name := some "Shopping" }

/-- Second example stored expense transaction. -/
def stEx2 : StoredTxn :=
  { amount := some (-10), date := some "2024-02-11", category_name := some "Travel" }

/-- C3: for every aggregator transaction record, the mapped internal
transaction stores `amount = abs(source amount)` and
`is_debit = (source amount > 0)`, where the source amount is the record's
amount field with the `dict.get` default 0; in particular a source amount of
0 maps to amount 0 and `is_debit = false`. -/
theorem mapped_amount_is_abs_and_debit_flag (p : PlaidTxn) (uid aid : String)
    (g : Nat) (now : String) :
    ((map_plaid_transaction p uid aid g now).1).amount = |p.amount.getD 0| ∧
    (((map_plaid_transaction p uid aid g now).1).is_debit = true ↔ 0 < p.amount.getD 0) ∧
    (p.amount.getD 0 = 0 →
      ((map_plaid_transaction p uid aid g now).1).amount = 0 ∧
      ((map_plaid_transaction p uid aid g now).1).is_debit = false) := by
  refine ⟨rfl, by simp [map_plaid_transaction], fun h => ?_⟩
  simp [map_plaid_transaction, h]

/-- Witness for the C3 theorem at a record with source amount 0. -/
theorem mapped_amount_is_abs_and_debit_flag_witness :
    ((map_plaid_transaction txZeroEx "u1" "acc1" 0 "ts").1).amount = 0 ∧
    ((map_plaid_transaction txZeroEx "u1" "acc1" 0 "ts").1).is_debit = false :=
  (mapped_amount_is_abs_and_debit_flag txZeroEx "u1" "acc1" 0 "ts").2.2 rfl

/-- C8 counterexample: in legacy mode a requested day count of 0 is used
unchanged, not raised to 1 as the claim's clamp to [1, 730] would require. -/
theorem effective_days_no_lower_clamp :
    effective_days 0 = 0 ∧ effective_days 0 ≠ 1 := by decide

/-- C8 (amended): the effective day-count window of a legacy-mode sync request
is the requested value capped above at 730 only: a request with more than 730
days uses 730, and any request of at most 730 days (including zero or negative
values) is used unchanged; the date range is `[now - days, now]` for that
capped value. -/
theorem effective_days_upper_cap_only (nowDays d : Int) :
    (730 < d → legacy_window nowDays d = (nowDays - 730, nowDays)) ∧
    (d ≤ 730 → legacy_window nowDays d = (nowDays - d, nowDays)) := by
  unfold legacy_window effective_days
  constructor <;> intro h
  · rw [min_eq_right (by omega)]
  · rw [min_eq_left h]

/-- Witness for the amended C8 theorem at requested day counts 1000 and 5. -/
theorem effective_days_upper_cap_only_witness :
    legacy_window 20000 1000 = (20000 - 730, 20000) ∧
    legacy_window 20000 5 = (20000 - 5, 20000) :=
  ⟨(effective_days_upper_cap_only 20000 1000).1 (by decide),
   (effective_days_upper_cap_only 20000 5).2 (by decide)⟩

/-- C10: for every aggregator record without an external transaction id, the
mapping draws two distinct fresh identifiers, one for the sort key and another
for the item's id field, so the item's id differs from its key suffix, its
`plaid_transaction_id` is absent, and two mappings of the same record (at the
distinct supply positions two invocations of the generators produce) store
under two different keys, with both entries present after the two puts: the
upsert is not idempotent for such records. -/
theorem missing_id_two_fresh_identifiers (p : PlaidTxn) (uid aid : String)
    (g g2 : Nat) (now now2 : String) (h : p.transaction_id = none) (hg : g ≠ g2) :
    ((map_plaid_transaction p uid aid g now).1).sk_txn_id = Ident.fresh g ∧
    ((map_plaid_transaction p uid aid g now).1).id = Ident.fresh (g + 1) ∧
    ((map_plaid_transaction p uid aid g now).1).id ≠
      ((map_plaid_transaction p uid aid g now).1).sk_txn_id ∧
    ((map_plaid_transaction p uid aid g now).1).plaid_transaction_id = none ∧
    ((map_plaid_transaction p uid aid g now).1).key ≠
      ((map_plaid_transaction p uid aid g2 now2).1).key ∧
    ∀ s : TxnStore,
      ((s.put ((map_plaid_transaction p uid aid g now).1).key
          (map_plaid_transaction p uid aid g now).1).put
        ((map_plaid_transaction p uid aid g2 now2).1).key
          (map_plaid_transaction p uid aid g2 now2).1)
        ((map_plaid_transaction p uid aid g now).1).key =
          some (map_plaid_transaction p uid aid g now).1 ∧
      ((s.put ((map_plaid_transaction p uid aid g now).1).key
          (map_plaid_transaction p uid aid g now).1).put
        ((map_plaid_transaction p uid aid g2 now2).1).key
          (map_plaid_transaction p uid aid g2 now2).1)
        ((map_plaid_transaction p uid aid g2 now2).1).key =
          some (map_plaid_transaction p uid aid g2 now2).1 := by
  have hkey : ((map_plaid_transaction p uid aid g now).1).key ≠
      ((map_plaid_transaction p uid aid g2 now2).1).key := by
    simp [map_plaid_transaction, h, Txn.key, TxnKey.mk.injEq]
    intro hc
    exact hg (Ident.fresh.injEq g g2 ▸ hc)
  refine ⟨by simp [map_plaid_transaction, h], by simp [map_plaid_transaction, h],
    by simp [map_plaid_transaction, h], by simp [map_plaid_transaction, h], hkey,
    fun s => ⟨?_, ?_⟩⟩
  · simp [TxnStore.put, hkey]
  · simp [TxnStore.put]

/-- Witness for the C10 theorem at a concrete id-less record and supply
positions 0 and 2. -/
theorem missing_id_two_fresh_identifiers_witness :
    ((map_plaid_transaction txNoIdEx "u1" "acc1" 0 "ts").1).sk_txn_id = Ident.fresh 0 ∧
    ((map_plaid_transaction txNoIdEx "u1" "acc1" 0 "ts").1).id = Ident.fresh 1 ∧
    ((map_plaid_transaction txNoIdEx "u1" "acc1" 0 "ts").1).id ≠
      ((map_plaid_transaction txNoIdEx "u1" "acc1" 0 "ts").1).sk_txn_id ∧
    ((map_plaid_transaction txNoIdEx "u1" "acc1" 0 "ts").1).plaid_transaction_id = none ∧
    ((map_plaid_transaction txNoIdEx "u1" "acc1" 0 "ts").1).key ≠
      ((map_plaid_transaction txNoIdEx "u1" "acc1" 2 "ts").1).key := by
  have h := missing_id_two_fresh_identifiers txNoIdEx "u1" "acc1" 0 2 "ts" "ts" rfl
    (by decide)
  exact ⟨h.1, h.2.1, h.2.2.1, h.2.2.2.1, h.2.2.2.2.1⟩

/-- C5: every goal write that sets or changes an amount stores a progress
equal to current divided by target (with the code's `dict.get` defaults 0 and
1 for amounts the write leaves absent), zero when the target is not positive,
with no clamping; creation and update use the same formula `goalProgress` on
the stored amounts. The creation hypothesis reflects that the payload is
merged last into the item: a `progress` key it carries must agree with the
computed value, which holds for the only caller (`goals/create_goal.py`
computes it with the identical formula). -/
theorem goal_progress_recomputed (uid gid now : String) (gd : GoalData)
    (goal : Goal) (u : GoalUpdates) (now2 : String)
    (hc : gd.progress = none ∨
      gd.progress = some (goalProgress (gd.current_amount.getD 0) (gd.target_amount.getD 1)))
    (hu : u.current_amount.isSome = true ∨ u.target_amount.isSome = true) :
    (create_goal uid gid now gd).progress =
      goalProgress ((create_goal uid gid now gd).current_amount.getD 0)
        ((create_goal uid gid now gd).target_amount.getD 1) ∧
    (update_goal goal u now2).progress =
      goalProgress ((update_goal goal u now2).current_amount.getD 0)
        ((update_goal goal u now2).target_amount.getD 1) := by
  constructor
  · rcases hc with hc | hc <;> simp [create_goal, hc]
  · have ht : (u.current_amount.isSome || u.target_amount.isSome) = true := by
      rcases hu with hu | hu
      · simp [hu]
      · simp [hu]
    cases hcu : u.current_amount <;> cases htu : u.target_amount
    · simp [hcu, htu] at ht
    · simp [update_goal, hcu, htu]
    · simp [update_goal, hcu, htu]
    · simp [update_goal, hcu, htu]

/-- Witness for the C5 theorem: a creation whose current amount exceeds the
target yields a progress above 1 (no clamping), and a contribution-style
update recomputes the progress from the merged amounts. -/
theorem goal_progress_recomputed_witness :
    (create_goal "u1" "g9" "ts" gdEx).progress = goalProgress 300 200 ∧
    1 < (create_goal "u1" "g9" "ts" gdEx).progress ∧
    (update_goal goalEx5 updEx "ts2").progress = goalProgress 250 1000 := by
  have h := goal_progress_recomputed "u1" "g9" "ts" gdEx goalEx5 updEx "ts2"
    (Or.inl rfl) (Or.inl rfl)
  refine ⟨h.1, by decide, h.2⟩

/-- C6 counterexample: for a goal with a positive target, a passed target
date, current below target and positive elapsed days, the projection returns
the goal's target date as the projected completion date, not null as the
claim states (together with on_track = false and monthly rate
`daily_rate * 30 = 100 / 517 * 30`). -/
theorem projection_past_target_counterexample :
    calculate_projected_completion goalEx6 nowEx6 =
      some (some "2024-01-01", false, Rat.divInt 3000 517) ∧
    (some "2024-01-01" : Option String) ≠ none := ⟨by decide, by decide⟩

/-- C6 (amended): for every goal with a positive target amount, a parseable
target date with days remaining ≤ 0, current amount below target and positive
days elapsed since creation, the projection returns the goal's target date
(not null) as the projected completion date, on_track = false, and a monthly
contribution estimate of `daily_rate * 30` where
`daily_rate = current_amount / days_elapsed`. -/
theorem projection_past_target_date (goal : Goal) (now created : Rat)
    (ymd : Nat × Nat × Nat) (s : String)
    (hd : goal.target_date = some s) (hne : s ≠ "")
    (hta : 0 < goal.target_amount.getD 0)
    (hp : parseDate s = some ymd)
    (hcreated : parseIsoInstant (pyReplace goal.created_at 'Z' "+00:00") = some created)
    (hrem : goal.current_amount.getD 0 < goal.target_amount.getD 0)
    (helapsed : 0 < (now - created).floor)
    (htarget : ((((daysFromCivil ymd.1 ymd.2.1 ymd.2.2 : Int) : Rat)) - now).floor ≤ 0) :
    calculate_projected_completion goal now =
      some (some s, false,
        goal.current_amount.getD 0 / (((now - created).floor : Int) : Rat) * 30) := by
  have hcond : ¬ (s = "" ∨ goal.target_amount.getD 0 ≤ 0) := by
    push_neg
    exact ⟨hne, hta⟩
  simp only [calculate_projected_completion, hd, Option.getD_some, hp, hcreated]
  rw [if_neg hcond]
  rw [if_neg (not_le.mpr (sub_pos.mpr hrem))]
  rw [if_neg (not_le.mpr helapsed)]
  rw [if_pos htarget]

/-- Witness for the amended C6 theorem at the concrete goal `goalEx6` and a
clock reading past its target date. -/
theorem projection_past_target_date_witness :
    calculate_projected_completion goalEx6 nowEx6 =
      some (some "2024-01-01", false,
        (100 : Rat) / (((nowEx6 - 19358).floor : Int) : Rat) * 30) := by
  exact projection_past_target_date goalEx6 nowEx6 19358 (2024, 1, 1) "2024-01-01"
    rfl (by decide) (by decide) (by decide) (by decide) (by decide) (by decide) (by decide)

theorem bucketAmount_cons_self (k0 : String) (v0 : Rat) (rest : Buckets) :
    bucketAmount ((k0, v0) :: rest) k0 = v0 := by
  simp [bucketAmount, List.find?_cons_of_pos]

theorem bucketAmount_cons_other (k0 : String) (v0 : Rat) (rest : Buckets) (k2 : String)
    (h : k0 ≠ k2) : bucketAmount ((k0, v0) :: rest) k2 = bucketAmount rest k2 := by
  simp [bucketAmount, List.find?_cons_of_neg, h]

theorem bucketAmount_bump (l : Buckets) (k : String) (v : Rat) (k2 : String) :
    bucketAmount (bump l k v) k2 = bucketAmount l k2 + (if k = k2 then v else 0) := by
  induction l with
  | nil =>
    by_cases h : k = k2
    · subst h
      simp [bump, bucketAmount_cons_self, bucketAmount]
    · simp [bump, bucketAmount_cons_other _ _ _ _ h, bucketAmount, h]
  | cons hd tl ih =>
    obtain ⟨k0, v0⟩ := hd
    by_cases h0 : k0 = k
    · subst h0
      have hb : bump ((k0, v0) :: tl) k0 v = (k0, v0 + v) :: tl := by simp [bump]
      rw [hb]
      by_cases h2 : k0 = k2
      · subst h2
        rw [bucketAmount_cons_self, bucketAmount_cons_self, if_pos rfl]
      · rw [bucketAmount_cons_other _ _ _ _ h2, bucketAmount_cons_other _ _ _ _ h2,
          if_neg h2, add_zero]
    · have hb : bump ((k0, v0) :: tl) k v = (k0, v0) :: bump tl k v := by simp [bump, h0]
      rw [hb]
      by_cases h2 : k0 = k2
      · subst h2
        have hk : k ≠ k0 := fun hc => h0 hc.symm
        rw [bucketAmount_cons_self, bucketAmount_cons_self, if_neg hk, add_zero]
      · rw [bucketAmount_cons_other _ _ _ _ h2, bucketAmount_cons_other _ _ _ _ h2, ih]

theorem sumValues_cons (k0 : String) (v0 : Rat) (rest : Buckets) :
    sumValues ((k0, v0) :: rest) = v0 + sumValues rest := by
  simp [sumValues]

theorem sumValues_bump (l : Buckets) (k : String) (v : Rat) :
    sumValues (bump l k v) = sumValues l + v := by
  induction l with
  | nil => simp [bump, sumValues]
  | cons hd tl ih =>
    obtain ⟨k0, v0⟩ := hd
    by_cases h0 : k0 = k
    · subst h0
      have hb : bump ((k0, v0) :: tl) k0 v = (k0, v0 + v) :: tl := by simp [bump]
      rw [hb, sumValues_cons, sumValues_cons]
      ring
    · have hb : bump ((k0, v0) :: tl) k v = (k0, v0) :: bump tl k v := by simp [bump, h0]
      rw [hb, sumValues_cons, sumValues_cons, ih]
      ring

theorem cashflow_step_inflow_lookup (granularity k : String) (acc : Buckets × Buckets)
    (t : StoredTxn) :
    bucketAmount (cashFlowStep granularity acc t).1 k =
      bucketAmount acc.1 k + inflowContrib granularity k t := by
  unfold cashFlowStep inflowContrib
  cases hb : bucketKey? granularity t with
  | none => simp
  | some key =>
    by_cases ha : 0 ≤ t.amount.getD 0
    · simp [ha, bucketAmount_bump]
    · simp [ha]

theorem cashflow_step_outflow_lookup (granularity k : String) (acc : Buckets × Buckets)
    (t : StoredTxn) :
    bucketAmount (cashFlowStep granularity acc t).2 k =
      bucketAmount acc.2 k + outflowContrib granularity k t := by
  unfold cashFlowStep outflowContrib
  cases hb : bucketKey? granularity t with
  | none => simp
  | some key =>
    by_cases ha : 0 ≤ t.amount.getD 0
    · simp [ha]
    · simp [ha, bucketAmount_bump]

theorem cashflow_step_inflow_sum (granularity : String) (acc : Buckets × Buckets)
    (t : StoredTxn) :
    sumValues (cashFlowStep granularity acc t).1 =
      sumValues acc.1 + inflowTotalContrib granularity t := by
  unfold cashFlowStep inflowTotalContrib
  cases hb : bucketKey? granularity t with
  | none => simp
  | some key =>
    by_cases ha : 0 ≤ t.amount.getD 0
    · simp [ha, sumValues_bump]
    · simp [ha]

theorem cashflow_step_outflow_sum (granularity : String) (acc : Buckets × Buckets)
    (t : StoredTxn) :
    sumValues (cashFlowStep granularity acc t).2 =
      sumValues acc.2 + outflowTotalContrib granularity t := by
  unfold cashFlowStep outflowTotalContrib
  cases hb : bucketKey? granularity t with
  | none => simp
  | some key =>
    by_cases ha : 0 ≤ t.amount.getD 0
    · simp [ha]
    · simp [ha, sumValues_bump]

theorem cashflow_foldl_measure (granularity : String) (txns : List StoredTxn)
    (f : Buckets × Buckets → Rat) (c : StoredTxn → Rat)
    (hf : ∀ acc t, f (cashFlowStep granularity acc t) = f acc + c t) :
    ∀ acc : Buckets × Buckets,
      f (txns.foldl (cashFlowStep granularity) acc) = f acc + (txns.map c).sum := by
  induction txns with
  | nil => simp
  | cons t rest ih =>
    intro acc
    rw [List.foldl_cons, ih, hf, List.map_cons, List.sum_cons]
    ring

/-- C4: for every list of transactions and every granularity, the cash-flow
rollup satisfies net_flow = total_inflow - total_outflow, total inflow and
outflow equal the summed per-transaction contributions over all buckets, and
each per-bucket amount equals the sum of the contributing transactions'
amounts (inflow) or magnitudes (outflow) for that period key. -/
theorem cash_flow_rollup_sums (txns : List StoredTxn) (granularity : String) :
    net_flow txns granularity = total_inflow txns granularity - total_outflow txns granularity ∧
    total_inflow txns granularity = (txns.map (inflowTotalContrib granularity)).sum ∧
    total_outflow txns granularity = (txns.map (outflowTotalContrib granularity)).sum ∧
    (∀ k, bucketAmount (aggregate_by_granularity txns granularity).1 k =
      (txns.map (inflowContrib granularity k)).sum) ∧
    (∀ k, bucketAmount (aggregate_by_granularity txns granularity).2 k =
      (txns.map (outflowContrib granularity k)).sum) := by
  refine ⟨rfl, ?_, ?_, ?_, ?_⟩
  · have := cashflow_foldl_measure granularity txns (fun acc => sumValues acc.1)
      (inflowTotalContrib granularity)
      (fun acc t => cashflow_step_inflow_sum granularity acc t) ([], [])
    simpa [total_inflow, aggregate_by_granularity, sumValues] using this
  · have := cashflow_foldl_measure granularity txns (fun acc => sumValues acc.2)
      (outflowTotalContrib granularity)
      (fun acc t => cashflow_step_outflow_sum granularity acc t) ([], [])
    simpa [total_outflow, aggregate_by_granularity, sumValues] using this
  · intro k
    have := cashflow_foldl_measure granularity txns (fun acc => bucketAmount acc.1 k)
      (inflowContrib granularity k)
      (fun acc t => cashflow_step_inflow_lookup granularity k acc t) ([], [])
    simpa [aggregate_by_granularity, bucketAmount] using this
  · intro k
    have := cashflow_foldl_measure granularity txns (fun acc => bucketAmount acc.2 k)
      (outflowContrib granularity k)
      (fun acc t => cashflow_step_outflow_lookup granularity k acc t) ([], [])
    simpa [aggregate_by_granularity, bucketAmount] using this

theorem sum_map_div (l : List (String × Rat × Nat)) (T : Rat) :
    (l.map (fun x => x.2.1 / T)).sum = (l.map (fun x => x.2.1)).sum / T := by
  induction l with
  | nil => simp
  | cons hd tl ih => simp [ih, add_div]

theorem spendingSorted_amount_sum (txns : List StoredTxn) (startD endD : String) :
    ((spendingSorted txns startD endD).map (fun x => x.2.1)).sum =
      ((category_spending txns startD endD).map (fun x => x.2.1)).sum :=
  List.Perm.sum_eq (List.Perm.map _ (List.mergeSort_perm _ _))

/-- C7: in the spending-by-category rollup, each reported category's
percentage is its summed magnitude divided by total_spending when
total_spending is positive and 0 otherwise (so 0 for every category when
total_spending = 0); the percentages over all reported categories sum to 1
when total_spending is positive and to at most 1 for every input. -/
theorem spending_percentages_sum (txns : List StoredTxn) (startD endD : String) :
    (∀ c amt cnt, (c, amt, cnt) ∈ spendingSorted txns startD endD →
      (c, if 0 < total_spending txns startD endD
          then amt / total_spending txns startD endD else 0) ∈
        category_percentage txns startD endD) ∧
    (0 < total_spending txns startD endD →
      ((category_percentage txns startD endD).map Prod.snd).sum = 1) ∧
    (total_spending txns startD endD = 0 →
      ∀ pr ∈ category_percentage txns startD endD, pr.2 = 0) ∧
    ((category_percentage txns startD endD).map Prod.snd).sum ≤ 1 := by
  have hmapsnd : ((category_percentage txns startD endD).map Prod.snd) =
      (spendingSorted txns startD endD).map
        (fun x => if 0 < total_spending txns startD endD
                  then x.2.1 / total_spending txns startD endD else 0) := by
    simp [category_percentage, List.map_map]
  have hone : 0 < total_spending txns startD endD →
      ((category_percentage txns startD endD).map Prod.snd).sum = 1 := by
    intro h
    rw [hmapsnd]
    simp only [if_pos h]
    rw [sum_map_div, spendingSorted_amount_sum]
    exact div_self h.ne'
  have hzero : ¬ 0 < total_spending txns startD endD →
      ∀ pr ∈ category_percentage txns startD endD, pr.2 = 0 := by
    intro h pr hpr
    obtain ⟨x, hx, rfl⟩ := List.mem_map.mp hpr
    simp [if_neg h]
  refine ⟨fun c amt cnt h => List.mem_map.mpr ⟨(c, amt, cnt), h, rfl⟩, hone,
    fun h => hzero (by simp [h]), ?_⟩
  by_cases h : 0 < total_spending txns startD endD
  · rw [hone h]
  · rw [hmapsnd]
    simp only [if_neg h]
    simp

/-- Witness for the C7 theorem at two concrete expense transactions with
total spending 40: the reported percentages sum to exactly 1. -/
theorem spending_percentages_sum_witness :
    0 < total_spending [stEx, stEx2] "2024-02-01" "2024-02-28" ∧
    ((category_percentage [stEx, stEx2] "2024-02-01" "2024-02-28").map Prod.snd).sum = 1 := by
  refine ⟨by decide, ?_⟩
  exact (spending_percentages_sum [stEx, stEx2] "2024-02-01" "2024-02-28").2.1 (by decide)

theorem spending_foldl_skip (startD endD : String) (txns : List StoredTxn)
    (h : ∀ t ∈ txns, 0 ≤ t.amount.getD 0) :
    ∀ acc, txns.foldl (spendingStep startD endD) acc = acc := by
  induction txns with
  | nil => simp
  | cons t rest ih =>
    intro acc
    rw [List.foldl_cons]
    have hs : spendingStep startD endD acc t = acc := by
      simp [spendingStep, h t (List.mem_cons_self t rest)]
    rw [hs]
    exact ih (fun t2 ht2 => h t2 (List.mem_cons_of_mem t ht2)) acc

theorem budget_foldl_skip (startD endD : String) (txns : List StoredTxn)
    (h : ∀ t ∈ txns, 0 ≤ t.amount.getD 0) :
    ∀ acc, txns.foldl (budgetActualStep startD endD) acc = acc := by
  induction txns with
  | nil => simp
  | cons t rest ih =>
    intro acc
    rw [List.foldl_cons]
    have hs : budgetActualStep startD endD acc t = acc := by
      simp [budgetActualStep, h t (List.mem_cons_self t rest)]
    rw [hs]
    exact ih (fun t2 ht2 => h t2 (List.mem_cons_of_mem t ht2)) acc

theorem cashflow_foldl_outflow_skip (granularity : String) (txns : List StoredTxn)
    (h : ∀ t ∈ txns, 0 ≤ t.amount.getD 0) :
    ∀ acc : Buckets × Buckets,
      (txns.foldl (cashFlowStep granularity) acc).2 = acc.2 := by
  induction txns with
  | nil => simp
  | cons t rest ih =>
    intro acc
    rw [List.foldl_cons]
    have hs : (cashFlowStep granularity acc t).2 = acc.2 := by
      unfold cashFlowStep
      cases hb : bucketKey? granularity t with
      | none => rfl
      | some key => simp [h t (List.mem_cons_self t rest)]
    rw [ih (fun t2 ht2 => h t2 (List.mem_cons_of_mem t ht2)), hs]

/-- C9: every transaction written by the sync engine stores a non-negative
amount (an absolute value), while all three analytics rollups count a
transaction as an expense or outflow only when its stored amount is strictly
negative; therefore over any transaction set produced solely by the sync
engine the spending-by-category map is empty with total spending 0, the
budget-comparison actuals are empty with actual total 0, and the cash-flow
outflow buckets are empty (every bucketed transaction counts as inflow). -/
theorem synced_transactions_never_expenses (txns : List StoredTxn)
    (h : ∀ t ∈ txns, ∃ p uid aid g now,
      t = Txn.toStored (map_plaid_transaction p uid aid g now).1) :
    (∀ t ∈ txns, 0 ≤ t.amount.getD 0) ∧
    (∀ startD endD,
      category_spending txns startD endD = [] ∧
      total_spending txns startD endD = 0 ∧
      category_actual txns startD endD = [] ∧
      actual_total txns startD endD = 0) ∧
    (∀ granularity, (aggregate_by_granularity txns granularity).2 = []) := by
  have hnn : ∀ t ∈ txns, 0 ≤ t.amount.getD 0 := by
    intro t ht
    obtain ⟨p, uid, aid, g, now, rfl⟩ := h t ht
    simp [Txn.toStored, map_plaid_transaction]
  refine ⟨hnn, fun startD endD => ?_, fun granularity => ?_⟩
  · have h1 : category_spending txns startD endD = [] :=
      spending_foldl_skip startD endD txns hnn []
    have h2 : category_actual txns startD endD = [] :=
      budget_foldl_skip startD endD txns hnn []
    refine ⟨h1, ?_, h2, ?_⟩
    · simp [total_spending, h1]
    · simp [actual_total, h2, sumValues]
  · exact cashflow_foldl_outflow_skip granularity txns hnn ([], [])

/-- Witness for the C9 theorem over a singleton set holding one synced
transaction. -/
theorem synced_transactions_never_expenses_witness :
    category_spending [Txn.toStored (map_plaid_transaction txEx "u1" "acc1" 0 "ts").1]
      "2024-01-01" "2024-12-31" = [] ∧
    (aggregate_by_granularity [Txn.toStored (map_plaid_transaction txEx "u1" "acc1" 0 "ts").1]
      "daily").2 = [] := by
  have h := synced_transactions_never_expenses
    [Txn.toStored (map_plaid_transaction txEx "u1" "acc1" 0 "ts").1]
    (by
      intro t ht
      simp only [List.mem_singleton] at ht
      exact ⟨txEx, "u1", "acc1", 0, "ts", ht⟩)
  exact ⟨(h.2.1 "2024-01-01" "2024-12-31").1, h.2.2 "daily"⟩

/-- C1: in the incremental sync, the account record (and hence its stored
cursor field) is written only after all added/modified/removed records of the
page have been processed: if the aggregator call or any repository operation
raises, the invocation returns the service-unavailable outcome and the
account record equals its value before the invocation; otherwise the account
record holds exactly the response's next cursor and a last-synced
timestamp. -/
theorem sync_cursor_atomicity (acct : Account) (uid : String)
    (aggResp : Option SyncResponse) (failAt : Option Nat) (g : Nat) (now : String)
    (store : TxnStore) :
    ((sync_incremental acct uid aggResp failAt g now store).1 =
        SyncOutcome.serviceUnavailable →
      (sync_incremental acct uid aggResp failAt g now store).2.2 = acct) ∧
    ((sync_incremental acct uid aggResp failAt g now store).1 ≠
        SyncOutcome.serviceUnavailable →
      ∃ resp, aggResp = some resp ∧
        (sync_incremental acct uid aggResp failAt g now store).2.2 =
          { acct with plaid_sync_cursor := resp.next_cursor, last_synced := some now }) := by
  cases aggResp with
  | none => exact ⟨fun _ => rfl, fun hne => absurd rfl hne⟩
  | some resp =>
    rcases hpa : processAll acct uid now failAt resp { store := store, g := g, op := 0 }
      with ⟨st, ok⟩
    cases ok with
    | false =>
      refine ⟨fun _ => ?_, fun hne => absurd ?_ hne⟩
      · simp [sync_incremental, hpa]
      · simp [sync_incremental, hpa]
    | true =>
      by_cases hop : opRaises failAt st.op = true
      · refine ⟨fun _ => ?_, fun hne => absurd ?_ hne⟩
        · simp [sync_incremental, hpa, hop]
        · simp [sync_incremental, hpa, hop]
      · refine ⟨fun hcontra => ?_, fun _ => ⟨resp, rfl, ?_⟩⟩
        · exfalso
          simp [sync_incremental, hpa, hop] at hcontra
        · simp [sync_incremental, hpa, hop]

/-- Witness for the C1 theorem: a repository fault at the very first write of
a nonempty page yields the service-unavailable outcome and leaves the account
record (cursor included) unchanged. -/
theorem sync_cursor_atomicity_witness :
    (sync_incremental acctEx "u1" (some respEx) (some 0) 0 "ts" emptyStore).2.2 = acctEx :=
  (sync_cursor_atomicity acctEx "u1" (some respEx) (some 0) 0 "ts" emptyStore).1 rfl

theorem opRaises_none (op : Nat) : opRaises none op = false := rfl

theorem applyOp_lookup (s : TxnStore) (o : StoreOp) (k : TxnKey) :
    applyOp s o k = if k = o.key then o.write else s k := by
  cases o <;> simp [applyOp, TxnStore.put, TxnStore.del, StoreOp.key, StoreOp.write]

theorem applyOps_lookup (l : List StoreOp) (s : TxnStore) (k : TxnKey) :
    applyOps s l k =
      match l.reverse.find? (fun o => o.key == k) with
      | some o => o.write
      | none => s k := by
  induction l generalizing s with
  | nil => simp [applyOps]
  | cons o rest ih =>
    have h1 : applyOps s (o :: rest) = applyOps (applyOp s o) rest := rfl
    rw [h1, ih, List.reverse_cons, List.find?_append]
    cases hf : rest.reverse.find? (fun o2 => o2.key == k) with
    | some o2 => simp
    | none =>
      simp only [Option.or]
      rw [applyOp_lookup]
      by_cases hk : k = o.key
      · subst hk
        simp [List.find?_cons]
      · have hb : (o.key == k) = false := by
          simp
          exact fun hc => hk hc.symm
        simp [List.find?_cons, hb, hk]

theorem applyOps_idem (s : TxnStore) (l : List StoreOp) :
    applyOps (applyOps s l) l = applyOps s l := by
  funext k
  rw [applyOps_lookup, applyOps_lookup (s := s)]
  cases hf : l.reverse.find? (fun o => o.key == k) with
  | some o => simp [hf]
  | none => simp [hf, applyOps_lookup]

theorem processUpserts_noFault (uid acctId : String) (pa : Option String) (now : String)
    (isAdded : Bool) (recs : List PlaidTxn) :
    ∀ st : SyncSt,
      (processUpserts uid acctId pa now none isAdded recs st).2 = true ∧
      (processUpserts uid acctId pa now none isAdded recs st).1.store =
        applyOps st.store (upsertOps uid acctId pa now recs st.g) ∧
      (processUpserts uid acctId pa now none isAdded recs st).1.g =
        gAfter pa recs st.g := by
  induction recs with
  | nil => exact fun st => ⟨rfl, rfl, rfl⟩
  | cons p rest ih =>
    intro st
    by_cases hpa : p.account_id = pa
    · simp only [processUpserts, if_pos hpa, opRaises_none, Bool.false_eq_true, if_false,
        upsertOps, gAfter]
      exact ih _
    · simp only [processUpserts, if_neg hpa, upsertOps, gAfter]
      exact ih st

theorem processRemovals_noFault (acctId : String) (recs : List PlaidTxn) :
    ∀ st : SyncSt,
      (processRemovals acctId none recs st).2 = true ∧
      (processRemovals acctId none recs st).1.store =
        applyOps st.store (removalOps acctId recs) := by
  induction recs with
  | nil => exact fun st => ⟨rfl, rfl⟩
  | cons p rest ih =>
    intro st
    by_cases hid : p.transaction_id.getD "" ≠ ""
    · simp only [processRemovals, if_pos hid, opRaises_none, Bool.false_eq_true, if_false,
        removalOps]
      exact ih _
    · simp only [processRemovals, if_neg hid, removalOps]
      exact ih st

theorem processAll_noFault (acct : Account) (uid now : String) (resp : SyncResponse)
    (st0 : SyncSt) :
    (processAll acct uid now none resp st0).2 = true ∧
    (processAll acct uid now none resp st0).1.store =
      applyOps st0.store (syncOps acct uid now resp st0.g) := by
  have h1 := processUpserts_noFault uid acct.id acct.plaid_account_id now true resp.added st0
  rcases hp1 : processUpserts uid acct.id acct.plaid_account_id now none true resp.added st0
    with ⟨st1, ok1⟩
  rw [hp1] at h1
  obtain ⟨hok1, hs1, hg1⟩ := h1
  subst hok1
  have h2 := processUpserts_noFault uid acct.id acct.plaid_account_id now false
    resp.modified st1
  rcases hp2 : processUpserts uid acct.id acct.plaid_account_id now none false
    resp.modified st1 with ⟨st2, ok2⟩
  rw [hp2] at h2
  obtain ⟨hok2, hs2, hg2⟩ := h2
  subst hok2
  have h3 := processRemovals_noFault acct.id resp.removed st2
  rcases hp3 : processRemovals acct.id none resp.removed st2 with ⟨st3, ok3⟩
  rw [hp3] at h3
  obtain ⟨hok3, hs3⟩ := h3
  subst hok3
  have hall : processAll acct uid now none resp st0 = (st3, true) := by
    simp [processAll, hp1, hp2, hp3]
  rw [hall]
  refine ⟨rfl, ?_⟩
  rw [hs3, hs2, hs1, hg1]
  simp [syncOps, applyOps, List.foldl_append]

theorem sync_store_noFault (acct : Account) (uid : String) (resp : SyncResponse)
    (g : Nat) (now : String) (store : TxnStore) :
    (sync_incremental acct uid (some resp) none g now store).2.1 =
      applyOps store (syncOps acct uid now resp g) := by
  have h := processAll_noFault acct uid now resp { store := store, g := g, op := 0 }
  rcases hpa : processAll acct uid now none resp { store := store, g := g, op := 0 }
    with ⟨st, ok⟩
  rw [hpa] at h
  obtain ⟨hok, hs⟩ := h
  subst hok
  simp only [sync_incremental, hpa, opRaises_none, Bool.false_eq_true, if_false]
  exact hs

theorem map_plaid_transaction_g_indep (p : PlaidTxn) (uid aid : String) (g g2 : Nat)
    (now : String) (t : String) (h : p.transaction_id = some t) :
    (map_plaid_transaction p uid aid g now).1 = (map_plaid_transaction p uid aid g2 now).1 := by
  simp [map_plaid_transaction, h]

theorem upsertOps_g_indep (uid acctId : String) (pa : Option String) (now : String)
    (recs : List PlaidTxn)
    (h : ∀ p ∈ recs, p.account_id = pa → p.transaction_id ≠ none) :
    ∀ g g2, upsertOps uid acctId pa now recs g = upsertOps uid acctId pa now recs g2 := by
  induction recs with
  | nil => exact fun g g2 => rfl
  | cons p rest ih =>
    intro g g2
    by_cases hpa : p.account_id = pa
    · obtain ⟨t, ht⟩ : ∃ t, p.transaction_id = some t := by
        cases hp : p.transaction_id with
        | none => exact absurd hp (h p (List.mem_cons_self p rest) hpa)
        | some t => exact ⟨t, rfl⟩
      have hkey := map_plaid_transaction_g_indep p uid acctId g g2 now t ht
      simp only [upsertOps, if_pos hpa]
      rw [hkey, ih (fun q hq => h q (List.mem_cons_of_mem p hq))
        (map_plaid_transaction p uid acctId g now).2
        (map_plaid_transaction p uid acctId g2 now).2]
    · simp only [upsertOps, if_neg hpa]
      exact ih (fun q hq => h q (List.mem_cons_of_mem p hq)) g g2

theorem syncOps_g_indep (acct : Account) (uid now : String) (resp : SyncResponse)
    (h : ∀ p ∈ resp.added ++ resp.modified,
      p.account_id = acct.plaid_account_id → p.transaction_id ≠ none)
    (g g2 : Nat) :
    syncOps acct uid now resp g = syncOps acct uid now resp g2 := by
  have hadd : ∀ p ∈ resp.added,
      p.account_id = acct.plaid_account_id → p.transaction_id ≠ none :=
    fun p hp => h p (List.mem_append_left _ hp)
  have hmod : ∀ p ∈ resp.modified,
      p.account_id = acct.plaid_account_id → p.transaction_id ≠ none :=
    fun p hp => h p (List.mem_append_right _ hp)
  unfold syncOps
  rw [upsertOps_g_indep uid acct.id acct.plaid_account_id now resp.added hadd g g2,
    upsertOps_g_indep uid acct.id acct.plaid_account_id now resp.modified hmod
      (gAfter acct.plaid_account_id resp.added g) (gAfter acct.plaid_account_id resp.added g2)]

/-- C2: running the incremental sync processing twice with the same aggregator
response (same added/modified/removed records, same account, same clock
reading) leaves the stored transaction set equal to the set after running it
once, whatever the fresh-UUID supply positions of the two runs are, provided
every added or modified record whose external account id matches the
account's linked external account id carries an external transaction id: such
records are upserted under the composite key (account id, external
transaction id), so the second run overwrites the same keys with the same
items and creates no new entries, and removals delete the same keys. -/
theorem sync_idempotent (acct : Account) (uid : String) (resp : SyncResponse)
    (g g2 : Nat) (now : String) (store : TxnStore)
    (h : ∀ p ∈ resp.added ++ resp.modified,
      p.account_id = acct.plaid_account_id → p.transaction_id ≠ none) :
    (sync_incremental acct uid (some resp) none g2 now
        ((sync_incremental acct uid (some resp) none g now store).2.1)).2.1 =
      (sync_incremental acct uid (some resp) none g now store).2.1 := by
  rw [sync_store_noFault, sync_store_noFault]
  rw [syncOps_g_indep acct uid now resp h g2 g]
  exact applyOps_idem store (syncOps acct uid now resp g)

/-- Witness for the C2 theorem: the concrete one-record response applied
twice, from supply positions 0 and 10, leaves the store of the first run
unchanged. -/
theorem sync_idempotent_witness :
    (sync_incremental acctEx "u1" (some respEx) none 10 "ts"
        ((sync_incremental acctEx "u1" (some respEx) none 0 "ts" emptyStore).2.1)).2.1 =
      (sync_incremental acctEx "u1" (some respEx) none 0 "ts" emptyStore).2.1 :=
  sync_idempotent acctEx "u1" respEx 0 10 "ts" emptyStore (by
    intro p hp hacc
    simp only [respEx, List.append_nil, List.mem_singleton] at hp
    subst hp
    simp [txEx])

end Saverr
